import Mathlib

/-!
# Verification of the WBroadcast campaign send pipeline

A shallow embedding, in Lean 4, of the campaign send pipeline of the
WBroadcast backend (`src/server/services/whatsappService.js` and the
provider webhook route in `src/server/routes/n8n.js`), together with
theorems settling the specification's claims about it.

Conventions of the embedding:
* JavaScript strings are Lean `String`s (with `List Char` internals where
  character-level work is needed).
* JavaScript numbers holding counters are `Int` (the webhook reconciler
  decrements `progress.sent`, which can cross zero); durations computed by
  division are `ℚ` (exact rational arithmetic, matching the values the
  numeric examples in the spec rely on).
* `undefined` / `null` / absent fields are `Option`.
* Mongoose documents are plain structures; `findOne` + `save` is modelled
  by locating the first list element satisfying the query predicate and
  rewriting it in place.
* The outbound HTTP dispatch (axios) is abstracted as an oracle
  `Contact → DispatchResult`, and serialization of the outgoing payload as
  an oracle `Contact → String`; both are external collaborators per the
  spec's §1.
-/

namespace WBroadcast

/-! ## Data model

The Mongoose schemas (`models/Campaign.js`, `models/Contact.js`,
`models/Message.js`) are not part of the selected source; the fields below
are the ones the send pipeline reads and writes, with shapes modelled from
the spec's §3 data model. -/

/-- Modelled from the spec: per-campaign aggregate progress counters
`{total, sent, delivered, read, failed}` (spec §3, Campaign). -/
structure Progress where
  total : Int
  sent : Int
  delivered : Int
  read : Int
  failed : Int
deriving DecidableEq, Repr

/-- Modelled from the spec: the Campaign fields the send pipeline uses
(spec §3, Campaign): identity, contact references, rate limit
(messages/minute, absent meaning default), status, progress counters. -/
structure Campaign where
  id : Nat
  contacts : List Nat
  rateLimitPerMinute : Option Nat
  status : String
  progress : Progress
deriving DecidableEq, Repr

/-- Modelled from the spec: a recipient (spec §3, Contact): phone, name,
email, free-form metadata, subscription state. -/
structure Contact where
  id : Nat
  name : String
  phone : String
  email : Option String
  metadata : Option (List (String × String))
  status : String
  optedOut : Bool
deriving DecidableEq, Repr

/-- Modelled from the spec: one send attempt (spec §3, Message): campaign
and contact references, serialized payload, status, provider message id,
per-stage timestamps (epoch milliseconds), error text. -/
structure Message where
  campaignId : Nat
  contactId : Nat
  content : String
  status : String
  whatsappMessageId : Option String
  sentAt : Option Int
  deliveredAt : Option Int
  readAt : Option Int
  errorMessage : Option String
deriving DecidableEq, Repr

/-! ## Phone normalizer

`formatPhoneNumber` (whatsappService.js lines 357-368): strip every
non-digit character (`phone.replace(/\D/g, '')`); if the result does not
start with `'91'` and is exactly 10 digits long, prepend `'91'`. -/

/-- `phone.replace(/\D/g, '')`: the digit characters of `s`, in order. -/
def digitsOf (s : String) : List Char :=
  s.data.filter Char.isDigit

/-- `formatPhoneNumber` from whatsappService.js lines 357-368
(`cleaned = phone.replace(/\D/g,''); if (!cleaned.startsWith('91') &&
cleaned.length === 10) cleaned = '91' + cleaned; return cleaned`). -/
def formatPhoneNumber (phone : String) : String :=
  if ¬ (['9', '1'].isPrefixOf (digitsOf phone)) ∧ (digitsOf phone).length = 10 then
    String.mk ('9' :: '1' :: digitsOf phone)
  else
    String.mk (digitsOf phone)

/-- The spec's own wording of the normalizer (§4.1): first remove all
non-digit characters; then, iff the digit string does not begin with `91`
and its length is exactly 10, prepend `91`; otherwise return it unchanged.
Stated separately so the source function can be proved to refine it. -/
def normalizeSpec (raw : String) : String :=
  if (['9', '1'].isPrefixOf (digitsOf raw)) = false ∧ (digitsOf raw).length = 10 then
    String.mk ('9' :: '1' :: digitsOf raw)
  else
    String.mk (digitsOf raw)

lemma filter_isDigit_digitsOf (s : String) :
    (digitsOf s).filter Char.isDigit = digitsOf s := by
  simp [digitsOf, List.filter_filter]

lemma digitsOf_mk (l : List Char) : digitsOf (String.mk l) = l.filter Char.isDigit := rfl

/-- C6: the normalizer strips non-digits, then prepends `91` exactly when the
digit string does not already begin with `91` and has length 10; the spec's
two worked examples hold; the function is total by construction. -/
theorem formatPhoneNumber_meets_spec :
    (∀ raw : String, formatPhoneNumber raw = normalizeSpec raw) ∧
    formatPhoneNumber "9876543210" = "919876543210" ∧
    formatPhoneNumber "+91 98765 43210" = "919876543210" := by
  refine ⟨fun raw => ?_, by decide, by decide⟩
  simp only [formatPhoneNumber, normalizeSpec, Bool.not_eq_true]

/-- C7: phone normalization is idempotent, and the spec's example
`normalize("919876543210") = "919876543210"` holds. -/
theorem formatPhoneNumber_idempotent :
    (∀ raw : String, formatPhoneNumber (formatPhoneNumber raw) = formatPhoneNumber raw) ∧
    formatPhoneNumber "919876543210" = "919876543210" := by
  refine ⟨fun raw => ?_, by decide⟩
  by_cases h : ¬ (['9', '1'].isPrefixOf (digitsOf raw)) ∧ (digitsOf raw).length = 10
  · have h1 : formatPhoneNumber raw = String.mk ('9' :: '1' :: digitsOf raw) := if_pos h
    have h2 : digitsOf (String.mk ('9' :: '1' :: digitsOf raw)) = '9' :: '1' :: digitsOf raw := by
      rw [digitsOf_mk]
      simp [List.filter, filter_isDigit_digitsOf]
    rw [h1, formatPhoneNumber, h2]
    rw [if_neg]
    rintro ⟨hp, -⟩
    exact hp (by simp [List.isPrefixOf])
  · have h1 : formatPhoneNumber raw = String.mk (digitsOf raw) := if_neg h
    have h2 : digitsOf (String.mk (digitsOf raw)) = digitsOf raw := by
      rw [digitsOf_mk, filter_isDigit_digitsOf]
    rw [h1, formatPhoneNumber, h2, if_neg h]

/-! ## Webhook status reconciler

`updateMessageStatus` (whatsappService.js lines 298-354): look the Message
up by the event's external WhatsApp message id; if absent (or its Campaign
is absent) return without changes; otherwise assign the event status to the
message, set the per-stage timestamp only when not already set, and on
`failed` set the error text and adjust the owning campaign's counters
(`progress.failed++; progress.sent--`). -/

/-- A provider status-update event `{id, status, timestamp, errors?}`
(timestamps are epoch seconds; `errors` models `errors?.[i]?.message`,
with `""` standing for a falsy message). -/
structure StatusUpdate where
  id : String
  status : String
  timestamp : Int
  errors : Option (List String)
deriving DecidableEq, Repr

/-- `errors?.[0]?.message || 'Message delivery failed'` (line 337). -/
def errorTextOf : Option (List String) → String
  | none => "Message delivery failed"
  | some [] => "Message delivery failed"
  | some (e :: _) => if e = "" then "Message delivery failed" else e

/-- The message-document mutation of `updateMessageStatus` (lines 315-345):
assign `status` unconditionally, then per-status effects. -/
def applyStatusToMessage (m : Message) (u : StatusUpdate) : Message :=
  let m1 : Message := { m with status := u.status }
  if u.status = "sent" then
    if m1.sentAt = none then { m1 with sentAt := some (u.timestamp * 1000) } else m1
  else if u.status = "delivered" then
    if m1.deliveredAt = none then { m1 with deliveredAt := some (u.timestamp * 1000) } else m1
  else if u.status = "read" then
    if m1.readAt = none then { m1 with readAt := some (u.timestamp * 1000) } else m1
  else if u.status = "failed" then
    { m1 with errorMessage := some (errorTextOf u.errors) }
  else m1

/-- The campaign-document mutation of `updateMessageStatus` (lines 336-341,
347-349): only a `failed` event changes the campaign, doing
`progress.failed++` and `progress.sent--` together. -/
def applyStatusToCampaign (c : Campaign) (u : StatusUpdate) : Campaign :=
  if u.status = "failed" then
    { c with progress :=
        { c.progress with failed := c.progress.failed + 1, sent := c.progress.sent - 1 } }
  else c

/-- `Message.findOne({whatsappMessageId})` match predicate. -/
def msgMatches (wid : String) (m : Message) : Bool :=
  decide (m.whatsappMessageId = some wid)

/-- `Campaign.findById(cid)` match predicate. -/
def campMatches (cid : Nat) (c : Campaign) : Bool :=
  decide (c.id = cid)

/-- `findOne` + mutate + `save`: rewrite the first element matched by `p`. -/
def updateFirst {α : Type} (p : α → Bool) (f : α → α) : List α → List α
  | [] => []
  | a :: as => if p a then f a :: as else a :: updateFirst p f as

/-- The persistent store the reconciler reads and writes. -/
structure DB where
  messages : List Message
  campaigns : List Campaign
deriving DecidableEq, Repr

def getMessage (db : DB) (wid : String) : Option Message :=
  db.messages.find? (msgMatches wid)

def getCampaign (db : DB) (cid : Nat) : Option Campaign :=
  db.campaigns.find? (campMatches cid)

/-- `updateMessageStatus` (whatsappService.js lines 298-354). -/
def updateMessageStatus (db : DB) (u : StatusUpdate) : DB :=
  match getMessage db u.id with
  | none => db
  | some message =>
    match getCampaign db message.campaignId with
    | none => db
    | some _ =>
      { messages := updateFirst (msgMatches u.id) (fun m => applyStatusToMessage m u) db.messages
        campaigns := updateFirst (campMatches message.campaignId)
          (fun c => applyStatusToCampaign c u) db.campaigns }

lemma find?_updateFirst {α : Type} (p : α → Bool) (f : α → α) (l : List α)
    (hf : ∀ a, p a = true → p (f a) = true) :
    (updateFirst p f l).find? p = (l.find? p).map f := by
  induction l with
  | nil => rfl
  | cons a as ih =>
    by_cases h : p a = true
    · rw [updateFirst, if_pos h, List.find?_cons_of_pos _ (hf a h), List.find?_cons_of_pos _ h]
      rfl
    · have h' : p a = false := by revert h; cases p a <;> simp
      rw [updateFirst, if_neg (by simp [h']), List.find?_cons_of_neg _ (by simp [h']),
        List.find?_cons_of_neg _ (by simp [h']), ih]

lemma applyStatusToMessage_whatsappMessageId (m : Message) (u : StatusUpdate) :
    (applyStatusToMessage m u).whatsappMessageId = m.whatsappMessageId := by
  simp only [applyStatusToMessage]
  split_ifs <;> rfl

lemma applyStatusToCampaign_id (c : Campaign) (u : StatusUpdate) :
    (applyStatusToCampaign c u).id = c.id := by
  unfold applyStatusToCampaign
  split_ifs <;> rfl

lemma applyStatusToMessage_failed (m : Message) (u : StatusUpdate) (h : u.status = "failed") :
    applyStatusToMessage m u =
      { m with status := "failed", errorMessage := some (errorTextOf u.errors) } := by
  simp [applyStatusToMessage, h]

lemma applyStatusToCampaign_failed (c : Campaign) (u : StatusUpdate) (h : u.status = "failed") :
    applyStatusToCampaign c u =
      { c with progress :=
          { c.progress with failed := c.progress.failed + 1, sent := c.progress.sent - 1 } } := by
  simp [applyStatusToCampaign, h]

lemma applyStatusToMessage_status (m : Message) (u : StatusUpdate) :
    (applyStatusToMessage m u).status = u.status := by
  simp only [applyStatusToMessage]
  split_ifs <;> rfl

lemma applyStatusToMessage_delivered_none (m : Message) (u : StatusUpdate)
    (h : u.status = "delivered") (h2 : m.deliveredAt = none) :
    applyStatusToMessage m u =
      { m with status := "delivered", deliveredAt := some (u.timestamp * 1000) } := by
  simp [applyStatusToMessage, h, h2]

lemma applyStatusToMessage_delivered_some (m : Message) (u : StatusUpdate) (v : Int)
    (h : u.status = "delivered") (h2 : m.deliveredAt = some v) :
    applyStatusToMessage m u = { m with status := "delivered" } := by
  simp [applyStatusToMessage, h, h2]

lemma applyStatusToMessage_readAt_of_delivered (m : Message) (u : StatusUpdate)
    (h : u.status = "delivered") :
    (applyStatusToMessage m u).readAt = m.readAt := by
  simp only [applyStatusToMessage]
  split_ifs <;> simp_all

lemma applyStatusToMessage_deliveredAt_some (m : Message) (u : StatusUpdate) (v : Int)
    (h2 : m.deliveredAt = some v) :
    (applyStatusToMessage m u).deliveredAt = some v := by
  simp only [applyStatusToMessage]
  split_ifs <;> simp_all

/-- C3: the reconciler ignores events whose external id matches no Message
(no state change at all); when a Message matches and the event is `failed`,
that Message gets status `failed` and the event's error text (or the
default), and the owning Campaign gets `progress.failed += 1` and
`progress.sent -= 1`. -/
theorem updateMessageStatus_reconciles (db : DB) (u : StatusUpdate) :
    (getMessage db u.id = none → updateMessageStatus db u = db) ∧
    (∀ m c, getMessage db u.id = some m →
      getCampaign db m.campaignId = some c →
      u.status = "failed" →
      getMessage (updateMessageStatus db u) u.id =
        some { m with status := "failed", errorMessage := some (errorTextOf u.errors) } ∧
      getCampaign (updateMessageStatus db u) m.campaignId =
        some { c with progress :=
          { c.progress with failed := c.progress.failed + 1,
                            sent := c.progress.sent - 1 } }) := by
  constructor
  · intro h
    unfold updateMessageStatus
    rw [h]
  · intro m c hm hc hf
    have hdb : updateMessageStatus db u =
        { messages := updateFirst (msgMatches u.id) (fun x => applyStatusToMessage x u) db.messages
          campaigns := updateFirst (campMatches m.campaignId)
            (fun x => applyStatusToCampaign x u) db.campaigns } := by
      unfold updateMessageStatus
      rw [hm]
      dsimp only
      rw [hc]
    constructor
    · rw [hdb]
      show (updateFirst (msgMatches u.id) (fun x => applyStatusToMessage x u)
          db.messages).find? (msgMatches u.id) = _
      rw [find?_updateFirst _ _ _
        (fun a ha => by
          simp only [msgMatches, decide_eq_true_eq] at ha ⊢
          rw [applyStatusToMessage_whatsappMessageId]
          exact ha)]
      rw [show db.messages.find? (msgMatches u.id) = some m from hm]
      rw [Option.map_some']
      rw [applyStatusToMessage_failed m u hf]
    · rw [hdb]
      show (updateFirst (campMatches m.campaignId) (fun x => applyStatusToCampaign x u)
          db.campaigns).find? (campMatches m.campaignId) = _
      rw [find?_updateFirst _ _ _
        (fun a ha => by
          simp only [campMatches, decide_eq_true_eq] at ha ⊢
          rw [applyStatusToCampaign_id]
          exact ha)]
      rw [show db.campaigns.find? (campMatches m.campaignId) = some c from hc]
      rw [Option.map_some']
      rw [applyStatusToCampaign_failed c u hf]

/-- A Message as created by a successful dispatch, used as concrete input. -/
def exMsg : Message :=
  { campaignId := 1, contactId := 2, content := "payload", status := "sent",
    whatsappMessageId := some "wamid.X", sentAt := some 1000,
    deliveredAt := none, readAt := none, errorMessage := none }

/-- A Campaign owning `exMsg`, used as concrete input. -/
def exCamp : Campaign :=
  { id := 1, contacts := [2], rateLimitPerMinute := none, status := "completed",
    progress := { total := 1, sent := 1, delivered := 0, read := 0, failed := 0 } }

/-- A store holding `exMsg` and `exCamp`, used as concrete input. -/
def exDB : DB := { messages := [exMsg], campaigns := [exCamp] }

/-- A `failed` status event for `exMsg` with no error detail. -/
def exFail : StatusUpdate := { id := "wamid.X", status := "failed", timestamp := 5, errors := none }

theorem updateMessageStatus_reconciles_witness :
    getMessage exDB exFail.id = some exMsg ∧
    getCampaign exDB exMsg.campaignId = some exCamp ∧
    exFail.status = "failed" ∧
    getMessage (updateMessageStatus exDB exFail) exFail.id =
      some { exMsg with status := "failed", errorMessage := some (errorTextOf exFail.errors) } ∧
    getCampaign (updateMessageStatus exDB exFail) exMsg.campaignId =
      some { exCamp with progress :=
        { exCamp.progress with failed := exCamp.progress.failed + 1,
                               sent := exCamp.progress.sent - 1 } } := by
  have h := (updateMessageStatus_reconciles exDB exFail).2 exMsg exCamp
    (by decide) (by decide) rfl
  exact ⟨by decide, by decide, rfl, h.1, h.2⟩

/-- C5: status updates are idempotent on timestamps — applying the same
`delivered` event twice leaves `deliveredAt` at the value from the first
application; each of `sentAt`/`deliveredAt`/`readAt` is written only when
not already set and an already-set value is never overwritten. -/
theorem deliveredAt_idempotent (m : Message) (u u2 : StatusUpdate)
    (hd : u.status = "delivered") :
    (applyStatusToMessage (applyStatusToMessage m u) u).deliveredAt
      = (applyStatusToMessage m u).deliveredAt ∧
    (m.deliveredAt = none →
      (applyStatusToMessage m u).deliveredAt = some (u.timestamp * 1000)) ∧
    (∀ v : Int, m.sentAt = some v → (applyStatusToMessage m u2).sentAt = some v) ∧
    (∀ v : Int, m.deliveredAt = some v → (applyStatusToMessage m u2).deliveredAt = some v) ∧
    (∀ v : Int, m.readAt = some v → (applyStatusToMessage m u2).readAt = some v) := by
  refine ⟨?_, ?_, ?_, ?_, ?_⟩
  · by_cases hnone : m.deliveredAt = none
    · rw [applyStatusToMessage_delivered_none m u hd hnone]
      exact applyStatusToMessage_deliveredAt_some _ u _ rfl
    · obtain ⟨v, hv⟩ := Option.ne_none_iff_exists'.mp hnone
      have h1 := applyStatusToMessage_deliveredAt_some m u v hv
      rw [h1]
      exact applyStatusToMessage_deliveredAt_some _ u v h1
  · intro hnone
    rw [applyStatusToMessage_delivered_none m u hd hnone]
  · intro v hv
    simp only [applyStatusToMessage]
    split_ifs <;> simp_all
  · intro v hv
    simp only [applyStatusToMessage]
    split_ifs <;> simp_all
  · intro v hv
    simp only [applyStatusToMessage]
    split_ifs <;> simp_all

/-- A `delivered` status event for `exMsg`. -/
def exDel : StatusUpdate :=
  { id := "wamid.X", status := "delivered", timestamp := 7, errors := none }

theorem deliveredAt_idempotent_witness :
    exDel.status = "delivered" ∧
    (applyStatusToMessage (applyStatusToMessage exMsg exDel) exDel).deliveredAt
      = (applyStatusToMessage exMsg exDel).deliveredAt ∧
    (applyStatusToMessage exMsg exDel).deliveredAt = some (exDel.timestamp * 1000) ∧
    (applyStatusToMessage exMsg exFail).sentAt = some 1000 := by
  have h := deliveredAt_idempotent exMsg exDel exFail rfl
  exact ⟨rfl, h.1, h.2.1 rfl, h.2.2.1 1000 rfl⟩

/-- C10: the reconciler assigns the event's status to the Message
unconditionally (no ordering guard), so status is not monotonic: a
`delivered` event demotes an already-`read` Message back to `delivered`
(while `readAt` stays set), and a repeated `failed` event re-applies the
campaign adjustment (`failed` up by 2, `sent` down by 2 after two events). -/
theorem status_overwrite_nonmonotonic (m : Message) (u : StatusUpdate) (c : Campaign) :
    (applyStatusToMessage m u).status = u.status ∧
    (applyStatusToMessage m u).whatsappMessageId = m.whatsappMessageId ∧
    (∀ r : Int, m.readAt = some r → u.status = "delivered" →
      (applyStatusToMessage m u).status = "delivered" ∧
      (applyStatusToMessage m u).readAt = some r) ∧
    (u.status = "failed" →
      (applyStatusToCampaign (applyStatusToCampaign c u) u).progress.failed
        = c.progress.failed + 2 ∧
      (applyStatusToCampaign (applyStatusToCampaign c u) u).progress.sent
        = c.progress.sent - 2) := by
  refine ⟨applyStatusToMessage_status m u,
    applyStatusToMessage_whatsappMessageId m u, ?_, ?_⟩
  · intro r hr hdel
    refine ⟨by rw [applyStatusToMessage_status, hdel], ?_⟩
    rw [applyStatusToMessage_readAt_of_delivered m u hdel, hr]
  · intro hf
    rw [applyStatusToCampaign_failed c u hf,
      applyStatusToCampaign_failed _ u hf]
    constructor <;> simp <;> ring

/-- A Message that has already been read, used as concrete input. -/
def exReadMsg : Message :=
  { campaignId := 1, contactId := 2, content := "payload", status := "read",
    whatsappMessageId := some "wamid.X", sentAt := some 1000,
    deliveredAt := some 2000, readAt := some 3000, errorMessage := none }

theorem status_overwrite_nonmonotonic_witness :
    exReadMsg.readAt = some 3000 ∧
    exDel.status = "delivered" ∧
    (applyStatusToMessage exReadMsg exDel).status = "delivered" ∧
    (applyStatusToMessage exReadMsg exDel).readAt = some 3000 ∧
    exFail.status = "failed" ∧
    (applyStatusToCampaign (applyStatusToCampaign exCamp exFail) exFail).progress.failed
      = exCamp.progress.failed + 2 ∧
    (applyStatusToCampaign (applyStatusToCampaign exCamp exFail) exFail).progress.sent
      = exCamp.progress.sent - 2 := by
  have h := status_overwrite_nonmonotonic exReadMsg exDel exCamp
  have h2 := status_overwrite_nonmonotonic exReadMsg exFail exCamp
  exact ⟨rfl, rfl, (h.2.2.1 3000 rfl rfl).1, (h.2.2.1 3000 rfl rfl).2, rfl,
    (h2.2.2.2 rfl).1, (h2.2.2.2 rfl).2⟩

/-! ## Provider webhook route

`handleWhatsAppWebhook` (whatsappService.js lines 260-296) iterates
`webhookData.entry[*].changes[*]`; for a change with `field === 'messages'`
it destructures `change.value` and feeds each element of `statuses` to
`updateMessageStatus`. A structurally malformed payload (missing `entry`,
missing `changes`, or a `messages` change without `value`) raises a
TypeError, which the service catches, logs, and **rethrows** ("Rethrow to
be handled by the route error handler"). The route
(`router.post('/webhook')`, n8n.js lines 376-395) answers
`200 EVENT_RECEIVED` on success and `sendStatus(500)` when the handler
throws; `verifyWebhookSignature` (lines 398-414) currently always returns
`true`. Errors are modelled as the `Option String` half of the result; DB
writes made before the error persist, as Mongoose saves do. -/

/-- `change.value`: holds the optional `statuses` array (incoming
`messages` are logged and otherwise ignored by the handler). -/
structure ChangeValue where
  statuses : Option (List StatusUpdate)
deriving DecidableEq, Repr

/-- One element of `entry[i].changes`. -/
structure WebhookChange where
  field : String
  value : Option ChangeValue
deriving DecidableEq, Repr

/-- One element of `webhookData.entry`; `changes` may be absent. -/
structure WebhookEntry where
  changes : Option (List WebhookChange)
deriving DecidableEq, Repr

/-- The webhook POST body; `entry` may be absent (malformed payload). -/
structure WebhookData where
  entry : Option (List WebhookEntry)
deriving DecidableEq, Repr

/-- The `for (const status of statuses)` loop (lines 275-280). -/
def processStatuses (db : DB) (statuses : List StatusUpdate) : DB :=
  statuses.foldl updateMessageStatus db

/-- One iteration of the `for (const change of changes)` loop
(lines 268-289); `some err` means a TypeError was raised. -/
def processChange (db : DB) (ch : WebhookChange) : DB × Option String :=
  if ch.field = "messages" then
    match ch.value with
    | none => (db, some "Cannot destructure property of undefined")
    | some v =>
      match v.statuses with
      | none => (db, none)
      | some ss => (processStatuses db ss, none)
  else (db, none)

def processChanges (db : DB) : List WebhookChange → DB × Option String
  | [] => (db, none)
  | ch :: rest =>
    match processChange db ch with
    | (db1, none) => processChanges db1 rest
    | (db1, some e) => (db1, some e)

def processEntries (db : DB) : List WebhookEntry → DB × Option String
  | [] => (db, none)
  | e :: rest =>
    match e.changes with
    | none => (db, some "changes is not iterable")
    | some chs =>
      match processChanges db chs with
      | (db1, none) => processEntries db1 rest
      | (db1, some err) => (db1, some err)

/-- `handleWhatsAppWebhook` (whatsappService.js lines 260-296); the
`Option String` is the rethrown error, `none` meaning normal return. -/
def handleWhatsAppWebhook (db : DB) (wd : WebhookData) : DB × Option String :=
  match wd.entry with
  | none => (db, some "entry is not iterable")
  | some es => processEntries db es

/-- `verifyWebhookSignature` (n8n.js lines 398-414): stubbed to `true` in
the source ("For now, return true for testing"). -/
def verifyWebhookSignature (_payload : String) (_signature : Option String) : Bool :=
  true

/-- An HTTP response as the route produces it: status code, and the body
for `res.status(s).send(body)` (absent for `res.sendStatus(s)`). -/
structure HttpResponse where
  code : Nat
  body : Option String
deriving DecidableEq, Repr

/-- `router.post('/webhook')` (n8n.js lines 376-395). -/
def webhookPostHandler (db : DB) (rawBody : String) (signature : Option String)
    (wd : WebhookData) : DB × HttpResponse :=
  if verifyWebhookSignature rawBody signature = false then
    (db, { code := 401, body := none })
  else
    match handleWhatsAppWebhook db wd with
    | (db1, none) => (db1, { code := 200, body := some "EVENT_RECEIVED" })
    | (db1, some _) => (db1, { code := 500, body := none })

/-- A change is well-formed when a `messages` change carries a `value`. -/
def wellFormedChange (ch : WebhookChange) : Bool :=
  decide (ch.field = "messages" → ch.value ≠ none)

def wellFormedEntry (e : WebhookEntry) : Bool :=
  match e.changes with
  | none => false
  | some chs => chs.all wellFormedChange

/-- Structural well-formedness of a webhook payload: `entry` present, each
entry's `changes` present, each `messages` change carrying a `value`. -/
def wellFormedData (wd : WebhookData) : Bool :=
  match wd.entry with
  | none => false
  | some es => es.all wellFormedEntry

lemma processChanges_ok (chs : List WebhookChange) :
    ∀ db : DB, chs.all wellFormedChange = true → (processChanges db chs).2 = none := by
  induction chs with
  | nil => intro db _; rfl
  | cons ch rest ih =>
    intro db h
    rw [List.all_cons, Bool.and_eq_true] at h
    have hch : (processChange db ch).2 = none := by
      by_cases hf : ch.field = "messages"
      · simp only [wellFormedChange, decide_eq_true_eq] at h
        have hnn := h.1 hf
        unfold processChange
        rw [if_pos hf]
        cases hv : ch.value with
        | none => exact absurd hv hnn
        | some v =>
          rcases v with ⟨ss⟩
          cases ss <;> rfl
      · unfold processChange
        rw [if_neg hf]
    rw [processChanges]
    cases hpc : processChange db ch with
    | mk db1 err =>
      rw [hpc] at hch
      cases err with
      | none => exact ih db1 h.2
      | some e => exact absurd hch (by simp)

lemma processEntries_ok (es : List WebhookEntry) :
    ∀ db : DB, es.all wellFormedEntry = true → (processEntries db es).2 = none := by
  induction es with
  | nil => intro db _; rfl
  | cons e rest ih =>
    intro db h
    rw [List.all_cons, Bool.and_eq_true] at h
    rw [processEntries]
    cases hc : e.changes with
    | none => simp [wellFormedEntry, hc] at h
    | some chs =>
      dsimp only
      have hwf : chs.all wellFormedChange = true := by
        have h1 := h.1
        rwa [wellFormedEntry, hc] at h1
      cases hpc : processChanges db chs with
      | mk db1 err =>
        have hok := processChanges_ok chs db hwf
        rw [hpc] at hok
        cases err with
        | none => exact ih db1 h.2
        | some er => exact absurd hok (by simp)

/-- C4 (amended): for every structurally well-formed payload — including
events whose external id matches no Message — the route answers
`200 EVENT_RECEIVED`; but when the payload is malformed (here: no `entry`
list) the reconciliation error is rethrown and the route answers 500, so
the acknowledgement is **not** unconditional. -/
theorem webhookAck_amended (db : DB) (rawBody : String) (signature : Option String)
    (wd : WebhookData) :
    (wellFormedData wd = true →
      (webhookPostHandler db rawBody signature wd).2
        = { code := 200, body := some "EVENT_RECEIVED" }) ∧
    (wd.entry = none →
      (webhookPostHandler db rawBody signature wd).2 = { code := 500, body := none }) := by
  constructor
  · intro h
    unfold webhookPostHandler handleWhatsAppWebhook
    rw [if_neg (by simp [verifyWebhookSignature])]
    cases he : wd.entry with
    | none => rw [wellFormedData, he] at h; exact absurd h (by simp)
    | some es =>
      dsimp only
      have hwf : es.all wellFormedEntry = true := by rwa [wellFormedData, he] at h
      have hok := processEntries_ok es db hwf
      cases hpe : processEntries db es with
      | mk db1 err =>
        rw [hpe] at hok
        cases err with
        | none => rfl
        | some er => exact absurd hok (by simp)
  · intro h
    unfold webhookPostHandler handleWhatsAppWebhook
    rw [if_neg (by simp [verifyWebhookSignature]), h]

/-- A status event whose external id matches no stored Message. -/
def exUnknownStatus : StatusUpdate :=
  { id := "wamid.unknown", status := "delivered", timestamp := 3, errors := none }

def exChange : WebhookChange :=
  { field := "messages", value := some { statuses := some [exUnknownStatus] } }

/-- A well-formed payload carrying a status event whose external id matches
no stored Message. -/
def exUnknownIdData : WebhookData :=
  { entry := some [{ changes := some [exChange] }] }

theorem webhookAck_amended_witness :
    wellFormedData exUnknownIdData = true ∧
    (webhookPostHandler exDB "" none exUnknownIdData).2
      = { code := 200, body := some "EVENT_RECEIVED" } ∧
    WebhookData.entry { entry := none } = none ∧
    (webhookPostHandler exDB "" none { entry := none }).2 = { code := 500, body := none } := by
  refine ⟨by decide, (webhookAck_amended exDB "" none exUnknownIdData).1 (by decide), rfl,
    (webhookAck_amended exDB "" none { entry := none }).2 rfl⟩

/-- C4 (counterexample): the claim "the handler's response to the provider
is the success acknowledgement for every inbound event payload, including
malformed events" fails at the concrete malformed payload `{}` (no `entry`
list): the route answers 500, not `EVENT_RECEIVED`. -/
theorem webhookAck_counterexample :
    ¬ ((webhookPostHandler exDB "" none { entry := none }).2
        = { code := 200, body := some "EVENT_RECEIVED" }) := by
  decide

/-! ## Campaign send loop

`sendCampaignMessages` (whatsappService.js lines 16-257): fetch and find
the template (throw if absent), resolve eligible contacts (active, not
opted out; throw if none), set `progress.total`, compute the inter-message
delay, then iterate contacts: on success create a `sent` Message and
`progress.sent++`; on failure create a `failed` Message with the error
text and `progress.failed++`; sleep between contacts except after the
last; finally set status `completed`. The outer catch sets status
`failed` and rethrows. The axios dispatch and payload serialization are
abstracted as oracles. -/

/-- Outcome of one outbound dispatch: the provider's message id
(`response.data.messages?.[0]?.id || null`), or the error text
(`err.response?.data?.error?.message || err.message`). -/
inductive DispatchResult where
  | ok (messageId : Option String)
  | fail (errorText : String)
deriving DecidableEq, Repr

def DispatchResult.isOk : DispatchResult → Bool
  | .ok _ => true
  | .fail _ => false

/-- The external collaborators of the loop: the dispatch client, the
payload serializer (`JSON.stringify(templatePayload)`), and the clock
(`new Date()`, epoch milliseconds). -/
structure SendEnv where
  dispatch : Contact → DispatchResult
  payloadOf : Contact → String
  now : Int

/-- In-flight loop state: the campaign document, the Message records
created so far, and the number of rate-limit suspensions performed. -/
structure LoopState where
  campaign : Campaign
  messages : List Message
  delays : Nat
deriving Repr

/-- The Message record one loop iteration creates for contact `k`
(lines 167-175 on success, lines 200-208 on failure). -/
def messageFor (env : SendEnv) (cid : Nat) (k : Contact) : Message :=
  match env.dispatch k with
  | .ok mid =>
    { campaignId := cid, contactId := k.id, content := env.payloadOf k,
      status := "sent", whatsappMessageId := mid, sentAt := some env.now,
      deliveredAt := none, readAt := none, errorMessage := none }
  | .fail e =>
    { campaignId := cid, contactId := k.id, content := env.payloadOf k,
      status := "failed", whatsappMessageId := none, sentAt := some env.now,
      deliveredAt := none, readAt := none, errorMessage := some e }

/-- One iteration of the per-contact loop body (lines 58-219): dispatch,
record a Message, bump the matching progress counter. -/
def processContact (env : SendEnv) (st : LoopState) (k : Contact) : LoopState :=
  match env.dispatch k with
  | .ok mid =>
    { campaign := { st.campaign with progress :=
        { st.campaign.progress with sent := st.campaign.progress.sent + 1 } }
      messages := st.messages ++
        [{ campaignId := st.campaign.id, contactId := k.id, content := env.payloadOf k,
           status := "sent", whatsappMessageId := mid, sentAt := some env.now,
           deliveredAt := none, readAt := none, errorMessage := none }]
      delays := st.delays }
  | .fail e =>
    { campaign := { st.campaign with progress :=
        { st.campaign.progress with failed := st.campaign.progress.failed + 1 } }
      messages := st.messages ++
        [{ campaignId := st.campaign.id, contactId := k.id, content := env.payloadOf k,
           status := "failed", whatsappMessageId := none, sentAt := some env.now,
           deliveredAt := none, readAt := none, errorMessage := some e }]
      delays := st.delays }

/-- The `for (let i = 0; ...)` loop (lines 58-225): process each contact;
suspend for the inter-message delay after every contact except the last
(`if (i < contacts.length - 1)`, line 222). -/
def runLoop (env : SendEnv) : LoopState → List Contact → LoopState
  | st, [] => st
  | st, k :: rest =>
    let st1 := processContact env st k
    let st2 := if rest = [] then st1 else { st1 with delays := st1.delays + 1 }
    runLoop env st2 rest

/-- `Contact.find({_id: {$in: campaign.contacts}, status: 'active',
optedOut: false})` (lines 37-41). -/
def eligibleContacts (allContacts : List Contact) (c : Campaign) : List Contact :=
  allContacts.filter
    (fun k => decide (k.id ∈ c.contacts ∧ k.status = "active" ∧ k.optedOut = false))

/-- `campaign.rateLimitPerMinute || 1000` (line 53; `0` is falsy in JS). -/
def rateLimitOrDefault (c : Campaign) : Nat :=
  match c.rateLimitPerMinute with
  | none => 1000
  | some r => if r = 0 then 1000 else r

/-- `delayBetweenMessages = (60 * 1000) / rateLimitPerMinute` (line 54),
in milliseconds, as the exact rational the JS division denotes here. -/
def delayBetweenMessages (c : Campaign) : ℚ :=
  (60 * 1000 : ℚ) / (rateLimitOrDefault c : ℚ)

/-- Result of a whole `sendCampaignMessages` run: final campaign document,
Message records created, number of rate-limit suspensions, and the thrown
error if any (`none` = normal completion). -/
structure SendOutcome where
  campaign : Campaign
  messages : List Message
  delays : Nat
  error : Option String
deriving Repr

/-- `sendCampaignMessages` (whatsappService.js lines 16-257).
`templateFound` abstracts the template catalog lookup of lines 26-33. -/
def sendCampaignMessages (templateFound : Bool) (allContacts : List Contact)
    (env : SendEnv) (campaign : Campaign) : SendOutcome :=
  if templateFound = false then
    { campaign := { campaign with status := "failed" }, messages := [], delays := 0,
      error := some "Template not found or not approved" }
  else
    let contacts := eligibleContacts allContacts campaign
    if contacts = [] then
      { campaign := { campaign with status := "failed" }, messages := [], delays := 0,
        error := some "No active contacts found" }
    else
      let final := runLoop env
        { campaign := { campaign with progress :=
            { campaign.progress with total := (contacts.length : Int) } }
          messages := [], delays := 0 } contacts
      { campaign := { final.campaign with status := "completed" }
        messages := final.messages, delays := final.delays, error := none }

lemma processContact_messages (env : SendEnv) (st : LoopState) (k : Contact) :
    (processContact env st k).messages = st.messages ++ [messageFor env st.campaign.id k] := by
  unfold processContact messageFor
  cases env.dispatch k <;> rfl

lemma processContact_id (env : SendEnv) (st : LoopState) (k : Contact) :
    (processContact env st k).campaign.id = st.campaign.id := by
  unfold processContact
  cases env.dispatch k <;> rfl

lemma processContact_status (env : SendEnv) (st : LoopState) (k : Contact) :
    (processContact env st k).campaign.status = st.campaign.status := by
  unfold processContact
  cases env.dispatch k <;> rfl

lemma processContact_total (env : SendEnv) (st : LoopState) (k : Contact) :
    (processContact env st k).campaign.progress.total = st.campaign.progress.total := by
  unfold processContact
  cases env.dispatch k <;> rfl

lemma processContact_delays (env : SendEnv) (st : LoopState) (k : Contact) :
    (processContact env st k).delays = st.delays := by
  unfold processContact
  cases env.dispatch k <;> rfl

lemma processContact_sent (env : SendEnv) (st : LoopState) (k : Contact) :
    (processContact env st k).campaign.progress.sent =
      st.campaign.progress.sent + (if (env.dispatch k).isOk then 1 else 0) := by
  unfold processContact DispatchResult.isOk
  cases env.dispatch k <;> simp

lemma processContact_failed (env : SendEnv) (st : LoopState) (k : Contact) :
    (processContact env st k).campaign.progress.failed =
      st.campaign.progress.failed + (if (env.dispatch k).isOk then 0 else 1) := by
  unfold processContact DispatchResult.isOk
  cases env.dispatch k <;> simp

lemma runLoop_messages (env : SendEnv) (cs : List Contact) :
    ∀ st : LoopState, (runLoop env st cs).messages
      = st.messages ++ cs.map (fun k => messageFor env st.campaign.id k) := by
  induction cs with
  | nil => intro st; simp [runLoop]
  | cons k rest ih =>
    intro st
    rw [runLoop]
    split
    · next hr =>
      subst hr
      simp [runLoop, processContact_messages]
    · next hr =>
      rw [ih]
      simp [processContact_messages, processContact_id]

lemma runLoop_id (env : SendEnv) (cs : List Contact) :
    ∀ st : LoopState, (runLoop env st cs).campaign.id = st.campaign.id := by
  induction cs with
  | nil => intro st; rfl
  | cons k rest ih =>
    intro st
    rw [runLoop]
    split
    · next hr => subst hr; simp [runLoop, processContact_id]
    · next hr => rw [ih]; simp [processContact_id]

lemma runLoop_status (env : SendEnv) (cs : List Contact) :
    ∀ st : LoopState, (runLoop env st cs).campaign.status = st.campaign.status := by
  induction cs with
  | nil => intro st; rfl
  | cons k rest ih =>
    intro st
    rw [runLoop]
    split
    · next hr => subst hr; simp [runLoop, processContact_status]
    · next hr => rw [ih]; simp [processContact_status]

lemma runLoop_total (env : SendEnv) (cs : List Contact) :
    ∀ st : LoopState, (runLoop env st cs).campaign.progress.total
      = st.campaign.progress.total := by
  induction cs with
  | nil => intro st; rfl
  | cons k rest ih =>
    intro st
    rw [runLoop]
    split
    · next hr => subst hr; simp [runLoop, processContact_total]
    · next hr => rw [ih]; simp [processContact_total]

lemma runLoop_sent (env : SendEnv) (cs : List Contact) :
    ∀ st : LoopState, (runLoop env st cs).campaign.progress.sent
      = st.campaign.progress.sent
        + ((cs.filter (fun k => (env.dispatch k).isOk)).length : Int) := by
  induction cs with
  | nil => intro st; simp [runLoop]
  | cons k rest ih =>
    intro st
    rw [runLoop]
    have hstep : ∀ st' : LoopState,
        (runLoop env st' rest).campaign.progress.sent
          = st'.campaign.progress.sent
            + ((rest.filter (fun k => (env.dispatch k).isOk)).length : Int) := ih
    split <;>
    · rw [hstep]
      simp only [processContact_sent, List.filter_cons]
      by_cases hok : (env.dispatch k).isOk
      · simp [hok]
        omega
      · simp [hok]

lemma runLoop_failed (env : SendEnv) (cs : List Contact) :
    ∀ st : LoopState, (runLoop env st cs).campaign.progress.failed
      = st.campaign.progress.failed
        + ((cs.filter (fun k => !(env.dispatch k).isOk)).length : Int) := by
  induction cs with
  | nil => intro st; simp [runLoop]
  | cons k rest ih =>
    intro st
    rw [runLoop]
    split <;>
    · rw [ih]
      simp only [processContact_failed, List.filter_cons]
      by_cases hok : (env.dispatch k).isOk
      · simp [hok]
      · simp [hok]
        omega

lemma runLoop_delays (env : SendEnv) (cs : List Contact) (hne : cs ≠ []) :
    ∀ st : LoopState, (runLoop env st cs).delays = st.delays + (cs.length - 1) := by
  induction cs with
  | nil => exact absurd rfl hne
  | cons k rest ih =>
    intro st
    rw [runLoop]
    by_cases hr : rest = []
    · subst hr
      simp [runLoop, processContact_delays]
    · rw [if_neg hr, ih hr]
      have hpos : 0 < rest.length := List.length_pos.mpr hr
      simp only [processContact_delays, List.length_cons]
      omega

/-- C2: a dispatch failure for one contact creates a Message record with
status `failed`, the provider's error text and the current timestamp, and
bumps `progress.failed` by exactly 1 (leaving `progress.sent` alone); the
loop still processes every eligible contact (one Message per contact) and
the campaign ends `completed` with no error, whatever the dispatch
outcomes were. -/
theorem perContactFailure_isolated (env : SendEnv) (st : LoopState) (k : Contact)
    (e : String) (allContacts : List Contact) (campaign : Campaign) :
    (env.dispatch k = .fail e →
      (processContact env st k).campaign.progress.failed
        = st.campaign.progress.failed + 1 ∧
      (processContact env st k).campaign.progress.sent = st.campaign.progress.sent ∧
      (processContact env st k).messages = st.messages ++
        [{ campaignId := st.campaign.id, contactId := k.id, content := env.payloadOf k,
           status := "failed", whatsappMessageId := none, sentAt := some env.now,
           deliveredAt := none, readAt := none, errorMessage := some e }]) ∧
    (eligibleContacts allContacts campaign ≠ [] →
      (sendCampaignMessages true allContacts env campaign).campaign.status = "completed" ∧
      (sendCampaignMessages true allContacts env campaign).error = none ∧
      (sendCampaignMessages true allContacts env campaign).messages.length
        = (eligibleContacts allContacts campaign).length) := by
  constructor
  · intro hf
    simp [processContact, hf]
  · intro hne
    unfold sendCampaignMessages
    rw [if_neg (by simp)]
    dsimp only
    rw [if_neg hne]
    dsimp only
    refine ⟨rfl, rfl, ?_⟩
    rw [runLoop_messages]
    simp

/-- C9: the inter-message delay is exactly `60000 ms / rateLimitPerMinute`
(1000 when unset, hence 60 ms; 1000 ms for a rate of 60), and a campaign
with `n` eligible contacts suspends exactly `n - 1` times (after every
contact except the last). -/
theorem rateLimit_delay (campaign : Campaign) (allContacts : List Contact) (env : SendEnv) :
    (campaign.rateLimitPerMinute = none → delayBetweenMessages campaign = 60) ∧
    (campaign.rateLimitPerMinute = some 60 → delayBetweenMessages campaign = 1000) ∧
    (∀ r : Nat, campaign.rateLimitPerMinute = some r → r ≠ 0 →
      delayBetweenMessages campaign = (60 * 1000 : ℚ) / (r : ℚ)) ∧
    (eligibleContacts allContacts campaign ≠ [] →
      (sendCampaignMessages true allContacts env campaign).delays
        = (eligibleContacts allContacts campaign).length - 1) := by
  refine ⟨?_, ?_, ?_, ?_⟩
  · intro h
    simp [delayBetweenMessages, rateLimitOrDefault, h]
  · intro h
    simp [delayBetweenMessages, rateLimitOrDefault, h]
  · intro r h hr
    simp [delayBetweenMessages, rateLimitOrDefault, h, hr]
  · intro hne
    unfold sendCampaignMessages
    rw [if_neg (by simp)]
    dsimp only
    rw [if_neg hne]
    dsimp only
    rw [runLoop_delays env _ hne]
    simp

/-! ## The progress-counter interleaving model (C1)

The claim quantifies over interleavings of the send loop's counter
increments and the webhook reconciler's failed-status adjustment, at the
granularity of those three compound counter operations. The three
operations below are proved to be exactly the progress mutations of
`processContact` (loop, lines 178 and 209) and `applyStatusToCampaign`
(reconciler, lines 339-340). -/

/-- One atomic progress-counter mutation of the pipeline. -/
inductive ProgressOp where
  | sendOk
  | sendFail
  | webhookFail
deriving DecidableEq, Repr

/-- Effect of each operation on the counters. -/
def applyOp (p : Progress) : ProgressOp → Progress
  | .sendOk => { p with sent := p.sent + 1 }
  | .sendFail => { p with failed := p.failed + 1 }
  | .webhookFail => { p with failed := p.failed + 1, sent := p.sent - 1 }

/-- An interleaving, applied left to right. -/
def applyOps (p : Progress) (ops : List ProgressOp) : Progress :=
  ops.foldl applyOp p

/-- Loop-iteration operations (one per contact processed). -/
def isLoopOp : ProgressOp → Bool
  | .sendOk => true
  | .sendFail => true
  | .webhookFail => false

/-- Number of loop iterations contained in an interleaving. -/
def loopOpCount (ops : List ProgressOp) : Int :=
  ((ops.filter isLoopOp).length : Int)

lemma applyOps_sum (ops : List ProgressOp) : ∀ p : Progress,
    (applyOps p ops).sent + (applyOps p ops).failed
      = p.sent + p.failed + loopOpCount ops := by
  induction ops with
  | nil => intro p; simp [applyOps, loopOpCount]
  | cons op rest ih =>
    intro p
    have hstep : applyOps p (op :: rest) = applyOps (applyOp p op) rest := rfl
    rw [hstep, ih (applyOp p op)]
    cases op <;> simp [applyOp, loopOpCount, List.filter_cons, isLoopOp] <;> omega

lemma applyOps_total (ops : List ProgressOp) : ∀ p : Progress,
    (applyOps p ops).total = p.total := by
  induction ops with
  | nil => intro p; rfl
  | cons op rest ih =>
    intro p
    have hstep : applyOps p (op :: rest) = applyOps (applyOp p op) rest := rfl
    rw [hstep, ih (applyOp p op)]
    cases op <;> rfl

lemma length_filter_isOk_add (env : SendEnv) (cs : List Contact) :
    ((cs.filter (fun k => (env.dispatch k).isOk)).length : Int)
      + ((cs.filter (fun k => !(env.dispatch k).isOk)).length : Int) = (cs.length : Int) := by
  induction cs with
  | nil => simp
  | cons k rest ih =>
    by_cases hok : (env.dispatch k).isOk <;> simp [List.filter_cons, hok] <;> omega

/-- C1: the three counter mutations of the pipeline are exactly the
operations of the interleaving model; starting from `sent = failed = 0`
with `total` set, every interleaving of at most `total` loop operations
with arbitrarily many webhook failed-adjustments keeps
`sent + failed ≤ total` (and `total` itself unchanged), with equality as
soon as all `total` loop operations have happened; accordingly a completed
sequential run satisfies `sent + failed = total`. -/
theorem progress_invariant (env : SendEnv) (st : LoopState) (k : Contact)
    (c : Campaign) (u : StatusUpdate) (p : Progress) (ops : List ProgressOp)
    (allContacts : List Contact) (campaign : Campaign) :
    ((env.dispatch k).isOk = true →
      (processContact env st k).campaign.progress
        = applyOp st.campaign.progress .sendOk) ∧
    ((env.dispatch k).isOk = false →
      (processContact env st k).campaign.progress
        = applyOp st.campaign.progress .sendFail) ∧
    (u.status = "failed" →
      (applyStatusToCampaign c u).progress = applyOp c.progress .webhookFail) ∧
    (p.sent = 0 → p.failed = 0 → loopOpCount ops ≤ p.total →
      (applyOps p ops).sent + (applyOps p ops).failed ≤ p.total ∧
      (applyOps p ops).total = p.total) ∧
    (p.sent = 0 → p.failed = 0 → loopOpCount ops = p.total →
      (applyOps p ops).sent + (applyOps p ops).failed = p.total) ∧
    (campaign.progress.sent = 0 → campaign.progress.failed = 0 →
      eligibleContacts allContacts campaign ≠ [] →
      (sendCampaignMessages true allContacts env campaign).campaign.status = "completed" ∧
      (sendCampaignMessages true allContacts env campaign).campaign.progress.sent
          + (sendCampaignMessages true allContacts env campaign).campaign.progress.failed
        = (sendCampaignMessages true allContacts env campaign).campaign.progress.total) := by
  refine ⟨?_, ?_, ?_, ?_, ?_, ?_⟩
  · intro hok
    cases hd : env.dispatch k with
    | ok mid => simp [processContact, hd, applyOp]
    | fail e => rw [hd] at hok; exact absurd hok (by simp [DispatchResult.isOk])
  · intro hok
    cases hd : env.dispatch k with
    | ok mid => rw [hd] at hok; exact absurd hok (by simp [DispatchResult.isOk])
    | fail e => simp [processContact, hd, applyOp]
  · intro hf
    rw [applyStatusToCampaign_failed c u hf]
    rfl
  · intro hs hf hle
    refine ⟨?_, applyOps_total ops p⟩
    rw [applyOps_sum ops p, hs, hf]
    omega
  · intro hs hf heq
    rw [applyOps_sum ops p, hs, hf, heq]
    ring
  · intro hs hf hne
    unfold sendCampaignMessages
    rw [if_neg (by simp)]
    dsimp only
    rw [if_neg hne]
    dsimp only
    refine ⟨rfl, ?_⟩
    rw [runLoop_sent, runLoop_failed, runLoop_total]
    dsimp only
    rw [hs, hf]
    have hlen := length_filter_isOk_add env (eligibleContacts allContacts campaign)
    omega

/-- A contact whose dispatch succeeds, used as concrete input. -/
def exContactA : Contact :=
  { id := 2, name := "Asha", phone := "9876543210", email := some "asha@example.com",
    metadata := some [("city", "Pune")], status := "active", optedOut := false }

/-- A contact whose dispatch fails, used as concrete input. -/
def exContactB : Contact :=
  { id := 3, name := "Ravi", phone := "919812345678", email := none,
    metadata := none, status := "active", optedOut := false }

/-- A two-contact campaign about to be sent, rate limit 60/minute. -/
def exSendCamp : Campaign :=
  { id := 1, contacts := [2, 3], rateLimitPerMinute := some 60, status := "sending",
    progress := { total := 0, sent := 0, delivered := 0, read := 0, failed := 0 } }

/-- An environment in which dispatch to contact 3 fails. -/
def exEnv : SendEnv :=
  { dispatch := fun k => if k.id = 3 then .fail "Invalid phone number" else .ok (some "wamid.A")
    payloadOf := fun _ => "payload", now := 1700000000000 }

/-- Loop state at the start of `exSendCamp`'s run. -/
def exStart : LoopState := { campaign := exSendCamp, messages := [], delays := 0 }

theorem perContactFailure_isolated_witness :
    exEnv.dispatch exContactB = .fail "Invalid phone number" ∧
    (processContact exEnv exStart exContactB).campaign.progress.failed
      = exStart.campaign.progress.failed + 1 ∧
    eligibleContacts [exContactA, exContactB] exSendCamp ≠ [] ∧
    (sendCampaignMessages true [exContactA, exContactB] exEnv exSendCamp).campaign.status
      = "completed" ∧
    (sendCampaignMessages true [exContactA, exContactB] exEnv exSendCamp).error = none ∧
    (sendCampaignMessages true [exContactA, exContactB] exEnv exSendCamp).messages.length
      = 2 := by
  have h := perContactFailure_isolated exEnv exStart exContactB "Invalid phone number"
    [exContactA, exContactB] exSendCamp
  have h1 := h.1 (by decide)
  have h2 := h.2 (by decide)
  refine ⟨by decide, h1.1, by decide, h2.1, h2.2.1, ?_⟩
  rw [h2.2.2]
  decide

theorem rateLimit_delay_witness :
    exSendCamp.rateLimitPerMinute = some 60 ∧
    delayBetweenMessages exSendCamp = 1000 ∧
    eligibleContacts [exContactA, exContactB] exSendCamp ≠ [] ∧
    (sendCampaignMessages true [exContactA, exContactB] exEnv exSendCamp).delays = 1 := by
  have h := rateLimit_delay exSendCamp [exContactA, exContactB] exEnv
  refine ⟨rfl, h.2.1 rfl, by decide, ?_⟩
  rw [h.2.2.2 (by decide)]
  decide

/-- An interleaving with both loop operations and a duplicated webhook
adjustment. -/
def exOps : List ProgressOp := [.sendOk, .webhookFail, .sendFail]

/-- Initial counters for a 2-contact campaign. -/
def exP : Progress := { total := 2, sent := 0, delivered := 0, read := 0, failed := 0 }

theorem progress_invariant_witness :
    (exEnv.dispatch exContactA).isOk = true ∧
    (processContact exEnv exStart exContactA).campaign.progress
      = applyOp exStart.campaign.progress .sendOk ∧
    exFail.status = "failed" ∧
    (applyStatusToCampaign exCamp exFail).progress = applyOp exCamp.progress .webhookFail ∧
    loopOpCount exOps = exP.total ∧
    (applyOps exP exOps).sent + (applyOps exP exOps).failed = exP.total ∧
    (sendCampaignMessages true [exContactA, exContactB] exEnv exSendCamp).campaign.progress.sent
        + (sendCampaignMessages true [exContactA, exContactB] exEnv
            exSendCamp).campaign.progress.failed
      = (sendCampaignMessages true [exContactA, exContactB] exEnv
          exSendCamp).campaign.progress.total := by
  have h := progress_invariant exEnv exStart exContactA exCamp exFail exP exOps
    [exContactA, exContactB] exSendCamp
  exact ⟨by decide, h.1 (by decide), rfl, h.2.2.1 rfl, by decide,
    h.2.2.2.2.1 rfl rfl (by decide), (h.2.2.2.2.2 rfl rfl (by decide)).2⟩

/-! ## Template payload builder: body variable resolution

`extractTemplateVariables` (whatsappService.js lines 724-736) collects the
distinct `{{token}}` markers of a template body in first-occurrence order
(regex `/{{(\\w+)}}/g`); the body-parameter construction of
`sendWhatsAppTemplateMessage` (lines 476-505) resolves each token against
the campaign variables, then the contact built-ins `name`/`phone`/`email`,
then the contact metadata, defaulting to the empty string. -/

/-- `\\w` of the template-variable regex: `[A-Za-z0-9_]`. -/
def isWordChar (c : Char) : Bool :=
  c.isAlphanum || c = '_'

/-- Successive matches of `/{{(\\w+)}}/g` over the body, in order,
duplicates kept: at `{{`, a maximal nonempty run of word characters
followed by `}}` is a match; otherwise the regex engine resumes one
character later. -/
def scanTemplateVars (l : List Char) : List String :=
  match l with
  | '{' :: '{' :: rest =>
    match rest.takeWhile isWordChar, hdw : rest.dropWhile isWordChar with
    | c :: cs, '}' :: '}' :: rest3 => String.mk (c :: cs) :: scanTemplateVars rest3
    | _, _ => scanTemplateVars ('{' :: rest)
  | _ :: rest => scanTemplateVars rest
  | [] => []
termination_by l.length
decreasing_by
  all_goals simp_wf
  all_goals
    have hle : (List.dropWhile isWordChar rest).length ≤ rest.length :=
      (List.dropWhile_suffix isWordChar).length_le
    rw [hdw] at hle
    simp at hle
    omega

/-- `if (!variables.includes(match[1])) variables.push(match[1])`
(lines 730-732). -/
def pushUnique (acc : List String) (s : String) : List String :=
  if s ∈ acc then acc else acc ++ [s]

/-- `extractTemplateVariables` (whatsappService.js lines 724-736). -/
def extractTemplateVariables (templateBody : String) : List String :=
  (scanTemplateVars templateBody.data).foldl pushUnique []

/-- `Map.get` on a JS `Map` modelled as an association list. -/
def mapLookup (m : List (String × String)) (k : String) : Option String :=
  (m.find? (fun p => decide (p.1 = k))).map Prod.snd

/-- `m && m.has(k)` guard plus `m.get(k)` for an optional map. -/
def hasGet (m : Option (List (String × String))) (k : String) : Option String :=
  match m with
  | none => none
  | some mm => mapLookup mm k

/-- The per-token resolution of the payload builder
(`sendWhatsAppTemplateMessage`, whatsappService.js lines 478-494):
campaign variables, then `name`/`phone`/`email` built-ins, then contact
metadata, else `\'\'`. -/
def resolveVariable (campaignVariables : Option (List (String × String)))
    (contact : Contact) (v : String) : String :=
  match hasGet campaignVariables v with
  | some value => value
  | none =>
    if v = "name" then contact.name
    else if v = "phone" then contact.phone
    else if v = "email" then contact.email.getD ""
    else
      match hasGet contact.metadata v with
      | some value => value
      | none => ""

/-- The body parameters the builder emits (lines 496-505): one
`{type: \'text\', text: value}` per extracted body token, in order. -/
def bodyParameters (body : String) (campaignVariables : Option (List (String × String)))
    (contact : Contact) : List (String × String) :=
  (extractTemplateVariables body).map
    (fun v => ("text", resolveVariable campaignVariables contact v))

/-- C8: token resolution precedence — the campaign variables map wins;
failing that, `name`/`phone`/`email` resolve to the contact built-ins;
failing that, the contact metadata map; a token found nowhere resolves to
the empty string, never an error. -/
theorem resolveVariable_precedence (cv : List (String × String)) (c : Contact)
    (v value : String) :
    (mapLookup cv v = some value → resolveVariable (some cv) c v = value) ∧
    (mapLookup cv v = none → v = "name" → resolveVariable (some cv) c v = c.name) ∧
    (mapLookup cv v = none → v = "phone" → resolveVariable (some cv) c v = c.phone) ∧
    (mapLookup cv v = none → v = "email" →
      resolveVariable (some cv) c v = c.email.getD "") ∧
    (mapLookup cv v = none → v ≠ "name" → v ≠ "phone" → v ≠ "email" →
      hasGet c.metadata v = some value → resolveVariable (some cv) c v = value) ∧
    (mapLookup cv v = none → v ≠ "name" → v ≠ "phone" → v ≠ "email" →
      hasGet c.metadata v = none → resolveVariable (some cv) c v = "") := by
  refine ⟨?_, ?_, ?_, ?_, ?_, ?_⟩
  · intro h
    simp [resolveVariable, hasGet, h]
  · intro h hv
    subst hv
    simp [resolveVariable, hasGet, h]
  · intro h hv
    subst hv
    simp [resolveVariable, hasGet, h]
  · intro h hv
    subst hv
    simp [resolveVariable, hasGet, h]
  · intro h h1 h2 h3 hm
    simp only [resolveVariable]
    rw [show hasGet (some cv) v = none from h]
    dsimp only
    rw [if_neg h1, if_neg h2, if_neg h3, hm]
  · intro h h1 h2 h3 hm
    simp only [resolveVariable]
    rw [show hasGet (some cv) v = none from h]
    dsimp only
    rw [if_neg h1, if_neg h2, if_neg h3, hm]

theorem resolveVariable_precedence_witness :
    mapLookup [("promo", "10OFF")] "promo" = some "10OFF" ∧
    resolveVariable (some [("promo", "10OFF")]) exContactA "promo" = "10OFF" ∧
    resolveVariable (some [("promo", "10OFF")]) exContactA "name" = exContactA.name ∧
    resolveVariable (some [("promo", "10OFF")]) exContactA "city" = "Pune" ∧
    resolveVariable (some [("promo", "10OFF")]) exContactA "unknown" = "" := by
  have h := resolveVariable_precedence [("promo", "10OFF")] exContactA "promo" "10OFF"
  have h2 := resolveVariable_precedence [("promo", "10OFF")] exContactA "name" "x"
  have h3 := resolveVariable_precedence [("promo", "10OFF")] exContactA "city" "Pune"
  have h4 := resolveVariable_precedence [("promo", "10OFF")] exContactA "unknown" "x"
  refine ⟨by decide, h.1 (by decide), h2.2.1 (by decide) rfl, ?_, ?_⟩
  · exact h3.2.2.2.2.1 (by decide) (by decide) (by decide) (by decide) (by decide)
  · exact h4.2.2.2.2.2 (by decide) (by decide) (by decide) (by decide) (by decide)

end WBroadcast
